import Mathlib

/-
Verification of the gladiapy v2 websocket client (src/gladiapy/v2/ws.py,
ws_models.py, errors.py) against its natural-language specification.

The Python code is shallowly embedded:
  - Python/JSON values are the inductive type PyVal; Python float literals
    are carried as exact rationals (no arithmetic is performed on them).
  - the reflective helper _dataclass_to_dict is embedded generically over
    PyVal, with dataclass instances represented by the PyVal.dataclass
    constructor carrying their field list in declaration order.
  - each @dataclass of InitializeSessionRequest becomes a Lean structure
    with the same fields, plus a pyFields function giving its PyVal field
    list in source order (after __post_init__ has replaced None lists by
    empty lists, exactly as the Python constructors do).
  - the websocket handlers (on_message, on_error, on_close) become pure
    functions from the registered callbacks and the decoded inbound frame
    to an outcome record listing the callback invocations they perform and
    whether an exception escapes the handler.  json.loads is modelled by
    passing the handler an already-decoded Option: none when the text is
    malformed JSON, some obj when it decodes to a JSON object.
  - application callbacks are functions into Except String Unit: an error
    result models the callback raising.
  - pydantic model_validate is modelled by validators checking, per model
    class of ws_models.py, that every required field is present with the
    right shape and that fields with defaults, when present, have the
    right shape (numeric coercion between int and float is allowed, as in
    pydantic lax mode).
-/

/-- A Python/JSON value. Floats are carried as exact rationals; the code
under verification only moves them around, it never computes with them. -/
inductive PyVal where
  | none
  | bool (b : Bool)
  | int (n : Int)
  | float (q : Rat)
  | str (s : String)
  | list (xs : List PyVal)
  | dict (kvs : List (String × PyVal))
  | dataclass (fs : List (String × PyVal))

/-- Association lookup in a decoded JSON object, first match wins:
Python dict indexing / dict.get for the unique-key dicts built here. -/
def lookupKey : List (String × PyVal) → String → Option PyVal
  | [], _ => Option.none
  | (n, v) :: rest, k => if n = k then some v else lookupKey rest k

/-- Python dict.get(k, default): a key present with value null yields null,
only a missing key yields the default. -/
def dictGet (kvs : List (String × PyVal)) (k : String) (default : PyVal) : PyVal :=
  match lookupKey kvs k with
  | some v => v
  | Option.none => default

/-- Python dict.pop(k, None): remove the entry named k (keys are unique in
every dict built by this embedding). -/
def popKey : List (String × PyVal) → String → List (String × PyVal)
  | [], _ => []
  | (n, v) :: rest, k => if n = k then popKey rest k else (n, v) :: popKey rest k

mutual
/-- Embedding of _dataclass_to_dict (ws.py lines 44-91).  The argument e is
exclude_none.  The non-dataclass branches: lists recurse into every item,
dicts recurse into every value, anything else is returned as-is. -/
def dataclassToDict (e : Bool) : PyVal → PyVal
  | .dataclass fs => .dict (dcFields e fs)
  | .list xs => .list (deepConvertList e xs)
  | .dict kvs => .dict (deepConvertKV e kvs)
  | v => v

/-- The field loop of _dataclass_to_dict: skip None fields when e; nested
dataclasses recurse; list fields convert only their dataclass items and are
dropped entirely when the converted list is empty and e is set (line 82:
a falsy converted_list is not emitted); dict fields recurse into values;
primitive fields are copied. -/
def dcFields (e : Bool) : List (String × PyVal) → List (String × PyVal)
  | [] => []
  | (n, v) :: rest =>
    match v with
    | .none => if e then dcFields e rest else (n, PyVal.none) :: dcFields e rest
    | .dataclass gs => (n, .dict (dcFields e gs)) :: dcFields e rest
    | .list xs =>
        let cl := shallowConvert e xs
        if cl.isEmpty && e then dcFields e rest else (n, .list cl) :: dcFields e rest
    | .dict kvs => (n, .dict (deepConvertKV e kvs)) :: dcFields e rest
    | other => (n, other) :: dcFields e rest

/-- List items inside a dataclass field: only dataclass items are converted,
all other items are appended unchanged (ws.py lines 76-81). -/
def shallowConvert (e : Bool) : List PyVal → List PyVal
  | [] => []
  | .dataclass gs :: rest => .dict (dcFields e gs) :: shallowConvert e rest
  | item :: rest => item :: shallowConvert e rest

/-- Dict values inside a dataclass field recurse through the full converter
(ws.py line 86). -/
def deepConvertKV (e : Bool) : List (String × PyVal) → List (String × PyVal)
  | [] => []
  | (k, v) :: rest => (k, dataclassToDict e v) :: deepConvertKV e rest

/-- Items of a list reached through the top-level non-dataclass branch
(ws.py lines 57-58) recurse through the full converter. -/
def deepConvertList (e : Bool) : List PyVal → List PyVal
  | [] => []
  | x :: rest => dataclassToDict e x :: deepConvertList e rest
end

/-- Lookup of a key in a serialized object; non-dicts have no keys. -/
def PyVal.getKey : PyVal → String → Option PyVal
  | .dict kvs, k => lookupKey kvs k
  | _, _ => Option.none

/-- Key lookup with a null default, for chaining into nested objects. -/
def PyVal.getKeyD (v : PyVal) (k : String) : PyVal :=
  (v.getKey k).getD PyVal.none

/-- Removing a key from a serialized object (result.pop in to_json). -/
def PyVal.pop : PyVal → String → PyVal
  | .dict kvs, k => .dict (popKey kvs k)
  | v, _ => v

/-- What the field loop of _dataclass_to_dict (with exclude_none) does to a
single looked-up field value; used to state lookup lemmas. -/
def convertField : Option PyVal → Option PyVal
  | Option.none => Option.none
  | some PyVal.none => Option.none
  | some (.dataclass gs) => some (.dict (dcFields true gs))
  | some (.list xs) =>
      if (shallowConvert true xs).isEmpty then Option.none
      else some (.list (shallowConvert true xs))
  | some (.dict kvs) => some (.dict (deepConvertKV true kvs))
  | some v => some v

/-- How many fields of a dataclass field list carry the name k. -/
def keyCount (fs : List (String × PyVal)) (k : String) : Nat :=
  (fs.map Prod.fst).count k

/-- Encode an Optional field: Python None becomes the JSON null. -/
def optPy (f : α → PyVal) : Option α → PyVal
  | Option.none => PyVal.none
  | some x => f x

/-- Encode a Python list of strings. -/
def pyStrList (xs : List String) : PyVal := .list (xs.map PyVal.str)

/-- Encode a Python list of rationals (floats). -/
def pyFloatList (xs : List Rat) : PyVal := .list (xs.map PyVal.float)

/-- InitializeSessionRequest.LanguageConfig (ws.py lines 124-132). The
languages field is never None after __post_init__, so it is a plain list. -/
structure InitializeSessionRequest.LanguageConfig where
  languages : List String := []
  code_switching : Bool := false

def InitializeSessionRequest.LanguageConfig.pyFields
    (c : InitializeSessionRequest.LanguageConfig) : List (String × PyVal) :=
  [("languages", pyStrList c.languages),
   ("code_switching", .bool c.code_switching)]

/-- InitializeSessionRequest.PreProcessing (ws.py lines 134-138). -/
structure InitializeSessionRequest.PreProcessing where
  audio_enhancer : Bool := false
  speech_threshold : Rat := 0.6

def InitializeSessionRequest.PreProcessing.pyFields
    (c : InitializeSessionRequest.PreProcessing) : List (String × PyVal) :=
  [("audio_enhancer", .bool c.audio_enhancer),
   ("speech_threshold", .float c.speech_threshold)]

/-- RealtimeProcessing.Vocabulary (ws.py lines 144-154); pronunciations is
never None after __post_init__. -/
structure InitializeSessionRequest.RealtimeProcessing.Vocabulary where
  value : String := ""
  intensity : Rat := 0.5
  pronunciations : List String := []
  language : String := "en"

def InitializeSessionRequest.RealtimeProcessing.Vocabulary.pyFields
    (c : InitializeSessionRequest.RealtimeProcessing.Vocabulary) : List (String × PyVal) :=
  [("value", .str c.value),
   ("intensity", .float c.intensity),
   ("pronunciations", pyStrList c.pronunciations),
   ("language", .str c.language)]

/-- RealtimeProcessing.CustomVocabularyConfig (ws.py lines 156-160). -/
structure InitializeSessionRequest.RealtimeProcessing.CustomVocabularyConfig where
  vocabulary : Option (List InitializeSessionRequest.RealtimeProcessing.Vocabulary) := Option.none
  default_intensity : Option Rat := some 0.5

def InitializeSessionRequest.RealtimeProcessing.CustomVocabularyConfig.pyFields
    (c : InitializeSessionRequest.RealtimeProcessing.CustomVocabularyConfig) :
    List (String × PyVal) :=
  [("vocabulary",
      optPy (fun l => .list (l.map (fun v => .dataclass v.pyFields))) c.vocabulary),
   ("default_intensity", optPy PyVal.float c.default_intensity)]

/-- RealtimeProcessing.CustomSpellingConfig (ws.py lines 162-169);
spelling_dictionary is never None after __post_init__, so it is a plain
(string to list-of-strings) dictionary. -/
structure InitializeSessionRequest.RealtimeProcessing.CustomSpellingConfig where
  spelling_dictionary : List (String × List String) := []

def InitializeSessionRequest.RealtimeProcessing.CustomSpellingConfig.pyFields
    (c : InitializeSessionRequest.RealtimeProcessing.CustomSpellingConfig) :
    List (String × PyVal) :=
  [("spelling_dictionary",
      .dict (c.spelling_dictionary.map (fun p => (p.1, pyStrList p.2))))]

/-- RealtimeProcessing.TranslationConfig (ws.py lines 171-189);
target_languages is never None after __post_init__. -/
structure InitializeSessionRequest.RealtimeProcessing.TranslationConfig where
  model : String := "base"
  target_languages : List String := []
  match_original_utterances : Option Bool := some true
  lipsync : Option Bool := some true
  context_adaptation : Option Bool := some false
  context : Option String := Option.none
  informal : Option Bool := some false

def InitializeSessionRequest.RealtimeProcessing.TranslationConfig.pyFields
    (c : InitializeSessionRequest.RealtimeProcessing.TranslationConfig) :
    List (String × PyVal) :=
  [("model", .str c.model),
   ("target_languages", pyStrList c.target_languages),
   ("match_original_utterances", optPy PyVal.bool c.match_original_utterances),
   ("lipsync", optPy PyVal.bool c.lipsync),
   ("context_adaptation", optPy PyVal.bool c.context_adaptation),
   ("context", optPy PyVal.str c.context),
   ("informal", optPy PyVal.bool c.informal)]

/-- InitializeSessionRequest.RealtimeProcessing (ws.py lines 140-198). -/
structure InitializeSessionRequest.RealtimeProcessing where
  custom_vocabulary : Bool := false
  custom_vocabulary_config :
    Option InitializeSessionRequest.RealtimeProcessing.CustomVocabularyConfig := Option.none
  custom_spelling : Bool := false
  custom_spelling_config :
    Option InitializeSessionRequest.RealtimeProcessing.CustomSpellingConfig := Option.none
  translation : Bool := false
  translation_config :
    Option InitializeSessionRequest.RealtimeProcessing.TranslationConfig := Option.none
  named_entity_recognition : Option Bool := some false
  sentiment_analysis : Option Bool := some false

def InitializeSessionRequest.RealtimeProcessing.pyFields
    (c : InitializeSessionRequest.RealtimeProcessing) : List (String × PyVal) :=
  [("custom_vocabulary", .bool c.custom_vocabulary),
   ("custom_vocabulary_config",
      optPy (fun x => .dataclass x.pyFields) c.custom_vocabulary_config),
   ("custom_spelling", .bool c.custom_spelling),
   ("custom_spelling_config",
      optPy (fun x => .dataclass x.pyFields) c.custom_spelling_config),
   ("translation", .bool c.translation),
   ("translation_config",
      optPy (fun x => .dataclass x.pyFields) c.translation_config),
   ("named_entity_recognition", optPy PyVal.bool c.named_entity_recognition),
   ("sentiment_analysis", optPy PyVal.bool c.sentiment_analysis)]

/-- PostProcessing.SummarizationConfig (ws.py lines 204-213). -/
structure InitializeSessionRequest.PostProcessing.SummarizationConfig where
  type : String := "general"

def InitializeSessionRequest.PostProcessing.SummarizationConfig.pyFields
    (c : InitializeSessionRequest.PostProcessing.SummarizationConfig) :
    List (String × PyVal) :=
  [("type", .str c.type)]

/-- InitializeSessionRequest.PostProcessing (ws.py lines 200-217). -/
structure InitializeSessionRequest.PostProcessing where
  summarization : Option Bool := some false
  summarization_config :
    Option InitializeSessionRequest.PostProcessing.SummarizationConfig := Option.none
  chapterization : Option Bool := some false

def InitializeSessionRequest.PostProcessing.pyFields
    (c : InitializeSessionRequest.PostProcessing) : List (String × PyVal) :=
  [("summarization", optPy PyVal.bool c.summarization),
   ("summarization_config",
      optPy (fun x => .dataclass x.pyFields) c.summarization_config),
   ("chapterization", optPy PyVal.bool c.chapterization)]

/-- InitializeSessionRequest.MessagesConfig (ws.py lines 219-230). -/
structure InitializeSessionRequest.MessagesConfig where
  receive_partial_transcripts : Option Bool := some false
  receive_final_transcripts : Option Bool := some true
  receive_speech_events : Option Bool := some true
  receive_pre_processing_events : Option Bool := some true
  receive_realtime_processing_events : Option Bool := some true
  receive_post_processing_events : Option Bool := some true
  receive_acknowledgments : Option Bool := some true
  receive_errors : Option Bool := some true
  receive_lifecycle_events : Option Bool := some true

def InitializeSessionRequest.MessagesConfig.pyFields
    (c : InitializeSessionRequest.MessagesConfig) : List (String × PyVal) :=
  [("receive_partial_transcripts", optPy PyVal.bool c.receive_partial_transcripts),
   ("receive_final_transcripts", optPy PyVal.bool c.receive_final_transcripts),
   ("receive_speech_events", optPy PyVal.bool c.receive_speech_events),
   ("receive_pre_processing_events", optPy PyVal.bool c.receive_pre_processing_events),
   ("receive_realtime_processing_events", optPy PyVal.bool c.receive_realtime_processing_events),
   ("receive_post_processing_events", optPy PyVal.bool c.receive_post_processing_events),
   ("receive_acknowledgments", optPy PyVal.bool c.receive_acknowledgments),
   ("receive_errors", optPy PyVal.bool c.receive_errors),
   ("receive_lifecycle_events", optPy PyVal.bool c.receive_lifecycle_events)]

/-- InitializeSessionRequest.CallbackConfig (ws.py lines 232-244). -/
structure InitializeSessionRequest.CallbackConfig where
  url : Option String := Option.none
  receive_partial_transcripts : Option Bool := some false
  receive_final_transcripts : Option Bool := some true
  receive_speech_events : Option Bool := some false
  receive_pre_processing_events : Option Bool := some true
  receive_realtime_processing_events : Option Bool := some true
  receive_post_processing_events : Option Bool := some true
  receive_acknowledgments : Option Bool := some false
  receive_errors : Option Bool := some false
  receive_lifecycle_events : Option Bool := some true

def InitializeSessionRequest.CallbackConfig.pyFields
    (c : InitializeSessionRequest.CallbackConfig) : List (String × PyVal) :=
  [("url", optPy PyVal.str c.url),
   ("receive_partial_transcripts", optPy PyVal.bool c.receive_partial_transcripts),
   ("receive_final_transcripts", optPy PyVal.bool c.receive_final_transcripts),
   ("receive_speech_events", optPy PyVal.bool c.receive_speech_events),
   ("receive_pre_processing_events", optPy PyVal.bool c.receive_pre_processing_events),
   ("receive_realtime_processing_events", optPy PyVal.bool c.receive_realtime_processing_events),
   ("receive_post_processing_events", optPy PyVal.bool c.receive_post_processing_events),
   ("receive_acknowledgments", optPy PyVal.bool c.receive_acknowledgments),
   ("receive_errors", optPy PyVal.bool c.receive_errors),
   ("receive_lifecycle_events", optPy PyVal.bool c.receive_lifecycle_events)]

/-- InitializeSessionRequest (ws.py lines 94-262), the full handshake body
dataclass, with the Python default for every field. -/
structure InitializeSessionRequest where
  region : String := "us-west"
  encoding : String := "wav/pcm"
  bit_depth : Int := 16
  sample_rate : Int := 16000
  channels : Int := 1
  custom_metadata : Option String := Option.none
  model : String := "solaria-1"
  endpointing : Rat := 0.05
  maximum_duration_without_endpointing : Int := 5
  language_config : Option InitializeSessionRequest.LanguageConfig := Option.none
  pre_processing : Option InitializeSessionRequest.PreProcessing := Option.none
  realtime_processing : Option InitializeSessionRequest.RealtimeProcessing := Option.none
  post_processing : Option InitializeSessionRequest.PostProcessing := Option.none
  messages_config : Option InitializeSessionRequest.MessagesConfig := Option.none
  callback : Option Bool := some false
  callback_config : Option InitializeSessionRequest.CallbackConfig := Option.none

def InitializeSessionRequest.pyFields (r : InitializeSessionRequest) :
    List (String × PyVal) :=
  [("region", .str r.region),
   ("encoding", .str r.encoding),
   ("bit_depth", .int r.bit_depth),
   ("sample_rate", .int r.sample_rate),
   ("channels", .int r.channels),
   ("custom_metadata", optPy PyVal.str r.custom_metadata),
   ("model", .str r.model),
   ("endpointing", .float r.endpointing),
   ("maximum_duration_without_endpointing", .int r.maximum_duration_without_endpointing),
   ("language_config", optPy (fun x => .dataclass x.pyFields) r.language_config),
   ("pre_processing", optPy (fun x => .dataclass x.pyFields) r.pre_processing),
   ("realtime_processing", optPy (fun x => .dataclass x.pyFields) r.realtime_processing),
   ("post_processing", optPy (fun x => .dataclass x.pyFields) r.post_processing),
   ("messages_config", optPy (fun x => .dataclass x.pyFields) r.messages_config),
   ("callback", optPy PyVal.bool r.callback),
   ("callback_config", optPy (fun x => .dataclass x.pyFields) r.callback_config)]

/-- The dataclass view of a request, fed to the generic converter. -/
def InitializeSessionRequest.toPy (r : InitializeSessionRequest) : PyVal :=
  .dataclass r.pyFields

/-- InitializeSessionRequest.to_json (ws.py lines 264-275): convert the
whole dataclass hierarchy with exclude_none, then drop the region key,
which travels as a URL query parameter instead. -/
def InitializeSessionRequest.to_json (r : InitializeSessionRequest) : PyVal :=
  (dataclassToDict true r.toPy).pop "region"

/-- An HTTP response as seen by the client: the status code and the result
of resp.json() — Option.none when the body is not valid JSON (resp.json()
raises), some kvs when it decodes to a JSON object. -/
structure HttpResponse where
  status_code : Int
  body : Option (List (String × PyVal))

/-- GladiaError (errors.py lines 5-23).  Every field is filled from the
response body by from_response, so the fields keep the raw JSON values. -/
structure GladiaError where
  message : PyVal
  status_code : PyVal
  request_id : PyVal
  timestamp : PyVal
  path : PyVal
  validation_errors : PyVal

/-- GladiaError.from_response (errors.py lines 25-44): a body that fails to
decode acts as the empty object; every field falls back through dict.get
chains, with the HTTP status code as the final fallback for status_code. -/
def GladiaError.from_response (resp : HttpResponse) (default_message : String) :
    GladiaError :=
  let data : List (String × PyVal) := resp.body.getD []
  { message := dictGet data "message" (.str default_message)
    status_code := dictGet data "statusCode" (dictGet data "status" (.int resp.status_code))
    request_id := dictGet data "request_id" (dictGet data "requestId" (.str ""))
    timestamp := dictGet data "timestamp" (.str "")
    path := dictGet data "path" (.str "")
    validation_errors := dictGet data "validation_errors" (dictGet data "validationErrors" (.list [])) }

/-- GladiaWebsocketClientSession state (ws.py lines 356-386).  The ws field
models self._ws (some id when a WebSocketApp object is attached, id being a
fresh serial number); threadsStarted counts how many receive-loop threads
have ever been started on this session (each Thread.start in
connect_and_start); closeCalls counts the ws.close() calls performed. -/
structure GladiaWebsocketClientSession where
  id : String
  url : String
  api_key : String
  ws : Option Nat
  threadsStarted : Nat
  closeCalls : Nat

/-- The session constructor (ws.py lines 359-385): no websocket object and
no receive loop exist yet. -/
def GladiaWebsocketClientSession.init (session_id ws_url api_key : String) :
    GladiaWebsocketClientSession :=
  { id := session_id, url := ws_url, api_key := api_key,
    ws := Option.none, threadsStarted := 0, closeCalls := 0 }

/-- connect_and_start (ws.py lines 390-477): unconditionally builds a fresh
WebSocketApp, stores it in self._ws, starts a new daemon thread running its
receive loop, sleeps briefly and returns True.  There is no check of the
current state: nothing stops or joins a previously started loop. -/
def GladiaWebsocketClientSession.connect_and_start
    (s : GladiaWebsocketClientSession) : GladiaWebsocketClientSession × Bool :=
  ({ s with ws := some s.threadsStarted, threadsStarted := s.threadsStarted + 1 }, true)

/-- disconnect (ws.py lines 491-496): when a websocket is attached, close it
(the close call may itself raise: the Except result carries that) and, via
try/finally, always clear self._ws.  When none is attached, do nothing. -/
def GladiaWebsocketClientSession.disconnect
    (close : Nat → Except String Unit) (s : GladiaWebsocketClientSession) :
    Except String Unit × GladiaWebsocketClientSession :=
  match s.ws with
  | some w => (close w, { s with ws := Option.none, closeCalls := s.closeCalls + 1 })
  | Option.none => (.ok (), s)

/-- send_audio_binary (ws.py lines 498-512): with no websocket attached it
returns False without touching the transport; otherwise it sends the first
size bytes of the buffer as one binary frame (opcode 0x2) and returns True.
The second component is the frame put on the wire, if any. -/
def GladiaWebsocketClientSession.send_audio_binary
    (s : GladiaWebsocketClientSession) (audio_data : List Nat) (size : Nat) :
    Bool × Option (List Nat) :=
  match s.ws with
  | Option.none => (false, Option.none)
  | some _ => (true, some (audio_data.take size))

/-- Result of GladiaWebsocketClient.connect: an API error raised for a
response of status 400 or above, a ValueError for a success response with a
falsy id or url, a decode failure of the success body, or a fresh session. -/
inductive ConnectResult where
  | apiError (e : GladiaError)
  | valueError (msg : String)
  | jsonError
  | session (s : GladiaWebsocketClientSession)

/-- GladiaWebsocketClient.connect (ws.py lines 289-314), as a function of
the control-plane response.  A status of 400 or above raises GladiaError
built by from_response before the body is inspected for id and url; only a
success response carrying both a non-empty string id and url produces a
session, and the produced session has no transport connection (ws is none:
the transport is only dialled later, by connect_and_start). -/
def GladiaWebsocketClient.connect (api_key : String)
    (_init_request : InitializeSessionRequest) (resp : HttpResponse) : ConnectResult :=
  if 400 ≤ resp.status_code then
    .apiError (GladiaError.from_response resp "Failed to create WebSocket session")
  else
    match resp.body with
    | Option.none => .jsonError
    | some data =>
      match lookupKey data "id", lookupKey data "url" with
      | some (.str sid), some (.str u) =>
          if sid = "" ∨ u = "" then
            .valueError "Invalid response: missing session_id or ws_url"
          else .session (GladiaWebsocketClientSession.init sid u api_key)
      | _, _ => .valueError "Invalid response: missing session_id or ws_url"

namespace events

/-- WebSocket event type tags (ws_models.py lines 18-35). -/
def AUDIO_CHUNK : String := "audio_chunk"
def STOP_RECORDING : String := "stop_recording"
def SPEECH_START : String := "speech_start"
def SPEECH_END : String := "speech_end"
def TRANSCRIPT : String := "transcript"
def TRANSLATION : String := "translation"
def NAMED_ENTITY_RECOGNITION : String := "named_entity_recognition"
def SENTIMENT_ANALYSIS : String := "sentiment_analysis"
def POST_TRANSCRIPTION : String := "post_transcript"
def FINAL_TRANSCRIPTION : String := "post_final_transcript"
def CHAPTERIZATION : String := "post_chapterization"
def SUMMARIZATION : String := "post_summarization"
def START_SESSION : String := "start_session"
def END_SESSION : String := "end_session"
def START_RECORDING : String := "start_recording"
def END_RECORDING : String := "end_recording"

end events

/-- The closed set of type tags the dispatcher routes (the 16 tags of the
elif chain in on_message, ws.py lines 433-467). -/
def knownEventTypes : List String :=
  [events.SPEECH_START, events.SPEECH_END, events.TRANSCRIPT, events.TRANSLATION,
   events.NAMED_ENTITY_RECOGNITION, events.SENTIMENT_ANALYSIS,
   events.POST_TRANSCRIPTION, events.FINAL_TRANSCRIPTION, events.CHAPTERIZATION,
   events.SUMMARIZATION, events.AUDIO_CHUNK, events.STOP_RECORDING,
   events.START_SESSION, events.END_SESSION, events.START_RECORDING,
   events.END_RECORDING]

/-- Shape check: a JSON string. -/
def isStr : PyVal → Bool
  | .str _ => true
  | _ => false

/-- Shape check: a JSON boolean. -/
def isBool : PyVal → Bool
  | .bool _ => true
  | _ => false

/-- Shape check: a JSON integer. -/
def isInt : PyVal → Bool
  | .int _ => true
  | _ => false

/-- Shape check: a JSON number (pydantic coerces ints into float fields). -/
def isNum : PyVal → Bool
  | .int _ => true
  | .float _ => true
  | _ => false

/-- Shape check: a JSON array whose members all satisfy p. -/
def isListOf (p : PyVal → Bool) : PyVal → Bool
  | .list xs => xs.all p
  | _ => false

/-- A required pydantic field: must be present and satisfy p (null never
satisfies a shape check, matching pydantic rejecting null for a
non-Optional field). -/
def reqField (kvs : List (String × PyVal)) (k : String) (p : PyVal → Bool) : Bool :=
  match lookupKey kvs k with
  | some v => p v
  | Option.none => false

/-- An Optional[...] pydantic field defaulting to None: may be absent, may
be null, otherwise must satisfy p. -/
def optField (kvs : List (String × PyVal)) (k : String) (p : PyVal → Bool) : Bool :=
  match lookupKey kvs k with
  | some PyVal.none => true
  | some v => p v
  | Option.none => true

/-- A pydantic field with a non-None default (e.g. default_factory=list):
may be absent, but when present must satisfy p (null is rejected). -/
def dfltField (kvs : List (String × PyVal)) (k : String) (p : PyVal → Bool) : Bool :=
  match lookupKey kvs k with
  | some v => p v
  | Option.none => true

/-- Validator for Error (ws_models.py lines 47-51). -/
def validError : PyVal → Bool
  | .dict kvs =>
      optField kvs "status_code" isInt && optField kvs "exception" isStr &&
      optField kvs "message" isStr
  | _ => false

/-- Validator for Word (rest_models.py lines 33-38). -/
def validWord : PyVal → Bool
  | .dict kvs =>
      reqField kvs "word" isStr && reqField kvs "start" isNum &&
      reqField kvs "end" isNum && reqField kvs "confidence" isNum
  | _ => false

/-- Validator for Utterance (rest_models.py lines 41-50). -/
def validUtterance : PyVal → Bool
  | .dict kvs =>
      reqField kvs "language" isStr && reqField kvs "start" isNum &&
      reqField kvs "end" isNum && reqField kvs "confidence" isNum &&
      reqField kvs "channel" isInt && dfltField kvs "words" (isListOf validWord) &&
      reqField kvs "text" isStr && optField kvs "speaker" isInt
  | _ => false

/-- Validator for Subtitle (rest_models.py lines 53-56). -/
def validSubtitle : PyVal → Bool
  | .dict kvs => reqField kvs "format" isStr && reqField kvs "subtitles" isStr
  | _ => false

/-- Validator for Metadata (rest_models.py lines 59-64). -/
def validMetadata : PyVal → Bool
  | .dict kvs =>
      reqField kvs "audio_duration" isNum &&
      reqField kvs "number_of_distinct_channels" isInt &&
      reqField kvs "billing_time" isNum && reqField kvs "transcription_time" isNum
  | _ => false

/-- Validator for Sentence (ws_models.py lines 130-136). -/
def validSentence : PyVal → Bool
  | .dict kvs =>
      reqField kvs "success" isBool && reqField kvs "is_empty" isBool &&
      reqField kvs "exec_time" isNum && optField kvs "error" validError &&
      optField kvs "results" (isListOf isStr)
  | _ => false

/-- Validator for GenericResult (ws_models.py lines 139-145) and its seven
aliases. -/
def validGenericResult : PyVal → Bool
  | .dict kvs =>
      reqField kvs "success" isBool && reqField kvs "is_empty" isBool &&
      reqField kvs "exec_time" isNum && optField kvs "error" validError &&
      dfltField kvs "results" (isListOf isStr)
  | _ => false

/-- Validator for NamedEntityRecognitionResultFinal (ws_models.py 158-164). -/
def validNERResultFinal : PyVal → Bool
  | .dict kvs =>
      reqField kvs "success" isBool && reqField kvs "is_empty" isBool &&
      reqField kvs "exec_time" isNum && optField kvs "error" validError &&
      optField kvs "entity" isStr
  | _ => false

/-- Validator for ResultPair (ws_models.py lines 167-170). -/
def validResultPair : PyVal → Bool
  | .dict kvs => optField kvs "prompt" isStr && optField kvs "response" isStr
  | _ => false

/-- Validator for AudioToLLMResultItem (ws_models.py lines 173-179). -/
def validAudioToLLMItem : PyVal → Bool
  | .dict kvs =>
      reqField kvs "success" isBool && reqField kvs "is_empty" isBool &&
      reqField kvs "exec_time" isNum && optField kvs "error" validError &&
      optField kvs "results" (isListOf validResultPair)
  | _ => false

/-- Validator for AudioToLLMResult (ws_models.py lines 182-188). -/
def validAudioToLLMResult : PyVal → Bool
  | .dict kvs =>
      reqField kvs "success" isBool && reqField kvs "is_empty" isBool &&
      reqField kvs "exec_time" isNum && optField kvs "error" validError &&
      optField kvs "results" (isListOf validAudioToLLMItem)
  | _ => false

/-- Validator for DisplayMode (ws_models.py lines 191-197). -/
def validDisplayMode : PyVal → Bool
  | .dict kvs =>
      reqField kvs "success" isBool && reqField kvs "is_empty" isBool &&
      reqField kvs "exec_time" isNum && optField kvs "error" validError &&
      optField kvs "results" (isListOf isStr)
  | _ => false

/-- Validator for ChapterizationResult (ws_models.py lines 200-206). -/
def validChapterizationResult : PyVal → Bool
  | .dict kvs =>
      reqField kvs "success" isBool && reqField kvs "is_empty" isBool &&
      reqField kvs "exec_time" isNum && optField kvs "error" validError &&
      optField kvs "results" isStr
  | _ => false

/-- Validator for DiarizationResultItem (ws_models.py lines 209-218). -/
def validDiarizationItem : PyVal → Bool
  | .dict kvs =>
      reqField kvs "start" isNum && reqField kvs "end" isNum &&
      reqField kvs "confidence" isNum && reqField kvs "channel" isInt &&
      optField kvs "speaker" isInt && dfltField kvs "words" (isListOf validWord) &&
      reqField kvs "text" isStr && reqField kvs "language" isStr
  | _ => false

/-- Validator for DiarizationResult (ws_models.py lines 221-227). -/
def validDiarizationResult : PyVal → Bool
  | .dict kvs =>
      reqField kvs "success" isBool && reqField kvs "is_empty" isBool &&
      reqField kvs "exec_time" isNum && optField kvs "error" validError &&
      optField kvs "results" (isListOf validDiarizationItem)
  | _ => false

/-- Validator for Transcription (ws_models.py lines 234-252). -/
def validTranscription : PyVal → Bool
  | .dict kvs =>
      reqField kvs "full_transcript" isStr &&
      dfltField kvs "languages" (isListOf isStr) &&
      dfltField kvs "subtitles" (isListOf validSubtitle) &&
      dfltField kvs "utterances" (isListOf validUtterance) &&
      optField kvs "summarization" validGenericResult &&
      optField kvs "moderation" validGenericResult &&
      optField kvs "named_entity_recognition" validNERResultFinal &&
      optField kvs "name_consistency" validGenericResult &&
      optField kvs "custom_spelling" validGenericResult &&
      optField kvs "speaker_reidentification" validGenericResult &&
      optField kvs "structured_data_extraction" validGenericResult &&
      optField kvs "sentiment_analysis" validGenericResult &&
      optField kvs "audio_to_llm" validAudioToLLMResult &&
      optField kvs "display_mode" validDisplayMode &&
      optField kvs "chapters" validChapterizationResult &&
      optField kvs "diarization_enhanced" validDiarizationResult &&
      optField kvs "diarization" validDiarizationResult
  | _ => false

/-- Validator for TranslationResultEntry (ws_models.py lines 403-410). -/
def validTranslationEntry : PyVal → Bool
  | .dict kvs =>
      optField kvs "error" validError && reqField kvs "full_transcript" isStr &&
      dfltField kvs "languages" (isListOf isStr) &&
      dfltField kvs "utterances" (isListOf validUtterance) &&
      optField kvs "sentences" (isListOf validSentence) &&
      optField kvs "subtitles" (isListOf validSubtitle)
  | _ => false

/-- Validator for TranslationResultForLive (ws_models.py lines 413-419). -/
def validTranslationResultForLive : PyVal → Bool
  | .dict kvs =>
      reqField kvs "success" isBool && reqField kvs "is_empty" isBool &&
      reqField kvs "exec_time" isNum && optField kvs "error" validError &&
      optField kvs "results" (isListOf validTranslationEntry)
  | _ => false

/-- Validator for SpeechEventData (ws_models.py lines 54-57). -/
def validSpeechEventData : PyVal → Bool
  | .dict kvs => reqField kvs "time" isNum && reqField kvs "channel" isInt
  | _ => false

/-- Validator for SpeechEvent (ws_models.py lines 60-65): data is required. -/
def validSpeechEvent : PyVal → Bool
  | .dict kvs =>
      reqField kvs "session_id" isStr && reqField kvs "created_at" isStr &&
      reqField kvs "type" isStr && reqField kvs "data" validSpeechEventData
  | _ => false

/-- Validator for TranscriptData (ws_models.py lines 73-77). -/
def validTranscriptData : PyVal → Bool
  | .dict kvs =>
      reqField kvs "id" isStr && reqField kvs "is_final" isBool &&
      reqField kvs "utterance" validUtterance
  | _ => false

/-- Validator for Transcript (ws_models.py lines 80-85): data is required. -/
def validTranscript : PyVal → Bool
  | .dict kvs =>
      reqField kvs "session_id" isStr && reqField kvs "created_at" isStr &&
      reqField kvs "type" isStr && reqField kvs "data" validTranscriptData
  | _ => false

/-- Validator for TranslationData (ws_models.py lines 88-94). -/
def validTranslationData : PyVal → Bool
  | .dict kvs =>
      reqField kvs "utterance_id" isStr && reqField kvs "utterance" validUtterance &&
      reqField kvs "original_language" isStr && reqField kvs "target_language" isStr &&
      reqField kvs "translated_utterance" validUtterance
  | _ => false

/-- Validator for Translation (ws_models.py lines 97-103). -/
def validTranslation : PyVal → Bool
  | .dict kvs =>
      reqField kvs "session_id" isStr && reqField kvs "created_at" isStr &&
      reqField kvs "type" isStr && optField kvs "error" validError &&
      optField kvs "data" validTranslationData
  | _ => false

/-- Validator for NamedEntityRecognitionResultItem (ws_models.py 106-111). -/
def validNERItem : PyVal → Bool
  | .dict kvs =>
      reqField kvs "entity_type" isStr && reqField kvs "text" isStr &&
      reqField kvs "start" isNum && reqField kvs "end" isNum
  | _ => false

/-- Validator for NamedEntityRecognitionData (ws_models.py lines 114-118). -/
def validNERData : PyVal → Bool
  | .dict kvs =>
      reqField kvs "utterance_id" isStr && reqField kvs "utterance" validUtterance &&
      dfltField kvs "results" (isListOf validNERItem)
  | _ => false

/-- Validator for NamedEntityRecognition (ws_models.py lines 121-127). -/
def validNER : PyVal → Bool
  | .dict kvs =>
      reqField kvs "session_id" isStr && reqField kvs "created_at" isStr &&
      reqField kvs "type" isStr && optField kvs "error" validError &&
      optField kvs "data" validNERData
  | _ => false

/-- Validator for SentimentAnalysisResultItem (ws_models.py lines 304-311);
its channel field is typed float. -/
def validSentiItem : PyVal → Bool
  | .dict kvs =>
      reqField kvs "sentiment" isStr && reqField kvs "emotion" isStr &&
      reqField kvs "text" isStr && reqField kvs "start" isNum &&
      reqField kvs "end" isNum && reqField kvs "channel" isNum
  | _ => false

/-- Validator for SentimentAnalysisData (ws_models.py lines 314-318). -/
def validSentiData : PyVal → Bool
  | .dict kvs =>
      reqField kvs "utterance_id" isStr && reqField kvs "utterance" validUtterance &&
      dfltField kvs "results" (isListOf validSentiItem)
  | _ => false

/-- Validator for SentimentAnalysis (ws_models.py 321-326): data required. -/
def validSentimentAnalysis : PyVal → Bool
  | .dict kvs =>
      reqField kvs "session_id" isStr && reqField kvs "created_at" isStr &&
      reqField kvs "type" isStr && reqField kvs "data" validSentiData
  | _ => false

/-- Validator for PostTranscriptData (ws_models.py lines 255-262). -/
def validPostTranscriptData : PyVal → Bool
  | .dict kvs =>
      reqField kvs "full_transcript" isStr &&
      dfltField kvs "languages" (isListOf isStr) &&
      dfltField kvs "utterances" (isListOf validUtterance) &&
      dfltField kvs "sentences" (isListOf validSentence) &&
      optField kvs "results" (isListOf isStr) &&
      optField kvs "subtitles" (isListOf validSubtitle)
  | _ => false

/-- Validator for PostTranscript (ws_models.py lines 265-271): data required. -/
def validPostTranscript : PyVal → Bool
  | .dict kvs =>
      reqField kvs "session_id" isStr && reqField kvs "created_at" isStr &&
      reqField kvs "type" isStr && optField kvs "error" validError &&
      reqField kvs "data" validPostTranscriptData
  | _ => false

/-- Validator for FinalTranscriptData (ws_models.py lines 274-278):
metadata is required. -/
def validFinalTranscriptData : PyVal → Bool
  | .dict kvs =>
      reqField kvs "metadata" validMetadata &&
      optField kvs "transcription" validTranscription &&
      optField kvs "translation" validTranslationResultForLive
  | _ => false

/-- Validator for FinalTranscript (ws_models.py lines 281-287): data required. -/
def validFinalTranscript : PyVal → Bool
  | .dict kvs =>
      reqField kvs "session_id" isStr && reqField kvs "created_at" isStr &&
      reqField kvs "type" isStr && optField kvs "error" validError &&
      reqField kvs "data" validFinalTranscriptData
  | _ => false

/-- Validator for SummarizationData (ws_models.py lines 290-292). -/
def validSummarizationData : PyVal → Bool
  | .dict kvs => reqField kvs "results" isStr
  | _ => false

/-- Validator for Summarization (ws_models.py lines 295-301). -/
def validSummarization : PyVal → Bool
  | .dict kvs =>
      reqField kvs "session_id" isStr && reqField kvs "created_at" isStr &&
      reqField kvs "type" isStr && optField kvs "error" validError &&
      optField kvs "data" validSummarizationData
  | _ => false

/-- Validator for Chapter (ws_models.py lines 329-340). -/
def validChapter : PyVal → Bool
  | .dict kvs =>
      reqField kvs "headline" isStr && reqField kvs "gist" isStr &&
      dfltField kvs "keywords" (isListOf isStr) &&
      reqField kvs "start" isNum && reqField kvs "end" isNum &&
      dfltField kvs "sentences" (isListOf validSentence) &&
      reqField kvs "text" isStr && reqField kvs "abstractive_summary" isStr &&
      reqField kvs "extractive_summary" isStr && reqField kvs "summary" isStr
  | _ => false

/-- Validator for ChapterizationData (ws_models.py lines 343-345). -/
def validChapterizationData : PyVal → Bool
  | .dict kvs => dfltField kvs "results" (isListOf validChapter)
  | _ => false

/-- Validator for Chapterization (ws_models.py lines 348-354). -/
def validChapterization : PyVal → Bool
  | .dict kvs =>
      reqField kvs "session_id" isStr && reqField kvs "created_at" isStr &&
      reqField kvs "type" isStr && optField kvs "error" validError &&
      optField kvs "data" validChapterizationData
  | _ => false

/-- Validator for LifecycleEvent (ws_models.py lines 357-361). -/
def validLifecycleEvent : PyVal → Bool
  | .dict kvs =>
      reqField kvs "session_id" isStr && reqField kvs "created_at" isStr &&
      reqField kvs "type" isStr
  | _ => false

/-- Validator for AudioChunkAcknowledgmentData (ws_models.py 371-374). -/
def validAudioAckData : PyVal → Bool
  | .dict kvs =>
      dfltField kvs "byte_range" (isListOf isNum) &&
      dfltField kvs "time_range" (isListOf isNum)
  | _ => false

/-- Validator for AudioChunkAcknowledgment (ws_models.py lines 377-384):
acknowledged is required. -/
def validAudioAck : PyVal → Bool
  | .dict kvs =>
      reqField kvs "session_id" isStr && reqField kvs "created_at" isStr &&
      reqField kvs "type" isStr && reqField kvs "acknowledged" isBool &&
      optField kvs "error" validError && optField kvs "data" validAudioAckData
  | _ => false

/-- Validator for StopRecordingAcknowledgmentData (ws_models.py 387-390). -/
def validStopAckData : PyVal → Bool
  | .dict kvs =>
      reqField kvs "recording_duration" isNum &&
      reqField kvs "recording_left_to_process" isNum
  | _ => false

/-- Validator for StopRecordingAcknowledgment (ws_models.py lines 393-400). -/
def validStopAck : PyVal → Bool
  | .dict kvs =>
      reqField kvs "session_id" isStr && reqField kvs "created_at" isStr &&
      reqField kvs "type" isStr && reqField kvs "acknowledged" isBool &&
      optField kvs "error" validError && optField kvs "data" validStopAckData
  | _ => false

/-- The callback registry of a session (ws.py lines 366-385).  An event
callback is a function from the validated event (kept as its JSON value) to
Except String Unit, where an error result models the callback raising; the
error callback takes the error message string.  The on_disconnected slot
carries the outcome of invoking it. -/
structure Callbacks where
  on_error : Option (String → Except String Unit) := Option.none
  on_connected : Option (Except String Unit) := Option.none
  on_disconnected : Option (Except String Unit) := Option.none
  on_speech_start : Option (PyVal → Except String Unit) := Option.none
  on_speech_end : Option (PyVal → Except String Unit) := Option.none
  on_transcript : Option (PyVal → Except String Unit) := Option.none
  on_translation : Option (PyVal → Except String Unit) := Option.none
  on_ner : Option (PyVal → Except String Unit) := Option.none
  on_sentiment : Option (PyVal → Except String Unit) := Option.none
  on_post_transcript : Option (PyVal → Except String Unit) := Option.none
  on_final_transcript : Option (PyVal → Except String Unit) := Option.none
  on_chapterization : Option (PyVal → Except String Unit) := Option.none
  on_summarization : Option (PyVal → Except String Unit) := Option.none
  on_audio_ack : Option (PyVal → Except String Unit) := Option.none
  on_stop_ack : Option (PyVal → Except String Unit) := Option.none
  on_start_session : Option (PyVal → Except String Unit) := Option.none
  on_end_session : Option (PyVal → Except String Unit) := Option.none
  on_start_recording : Option (PyVal → Except String Unit) := Option.none
  on_end_recording : Option (PyVal → Except String Unit) := Option.none

/-- What happened inside the try block of on_message for one frame. -/
inductive RouteResult where
  | noMatch
  | handled (t : String)
  | cbRaised (t : String) (e : String)
  | validationFailed (t : String) (e : String)

/-- Invoke an event callback on a validated event. -/
def runCb (f : PyVal → Except String Unit) (v : PyVal) (t : String) : RouteResult :=
  match f v with
  | .ok _ => .handled t
  | .error e => .cbRaised t e

/-- One elif arm of the dispatcher (ws.py lines 433-467): the arm fires
only when the type tag equals its tag AND its callback slot is set;
otherwise evaluation falls through to the next arm.  When the arm fires,
model_validate runs first (a validation failure raises, caught further out)
and only then is the callback invoked (it may raise too). -/
def branch (et : Option PyVal) (t : String) (cb : Option (PyVal → Except String Unit))
    (validate : PyVal → Bool) (data : List (String × PyVal))
    (next : RouteResult) : RouteResult :=
  match et with
  | some (.str s) =>
      if s = t then
        match cb with
        | some f =>
            if validate (.dict data) then runCb f (.dict data) t
            else .validationFailed t ("validation error for type " ++ t)
        | Option.none => next
      else next
  | _ => next

/-- The full elif chain of on_message in source order. -/
def routeEvent (cbs : Callbacks) (data : List (String × PyVal)) : RouteResult :=
  let et := lookupKey data "type"
  branch et events.SPEECH_START cbs.on_speech_start validSpeechEvent data
   (branch et events.SPEECH_END cbs.on_speech_end validSpeechEvent data
    (branch et events.TRANSCRIPT cbs.on_transcript validTranscript data
     (branch et events.TRANSLATION cbs.on_translation validTranslation data
      (branch et events.NAMED_ENTITY_RECOGNITION cbs.on_ner validNER data
       (branch et events.SENTIMENT_ANALYSIS cbs.on_sentiment validSentimentAnalysis data
        (branch et events.POST_TRANSCRIPTION cbs.on_post_transcript validPostTranscript data
         (branch et events.FINAL_TRANSCRIPTION cbs.on_final_transcript validFinalTranscript data
          (branch et events.CHAPTERIZATION cbs.on_chapterization validChapterization data
           (branch et events.SUMMARIZATION cbs.on_summarization validSummarization data
            (branch et events.AUDIO_CHUNK cbs.on_audio_ack validAudioAck data
             (branch et events.STOP_RECORDING cbs.on_stop_ack validStopAck data
              (branch et events.START_SESSION cbs.on_start_session validLifecycleEvent data
               (branch et events.END_SESSION cbs.on_end_session validLifecycleEvent data
                (branch et events.START_RECORDING cbs.on_start_recording validLifecycleEvent data
                 (branch et events.END_RECORDING cbs.on_end_recording validLifecycleEvent data
                  RouteResult.noMatch)))))))))))))))

/-- Observable outcome of one handler run: the error-callback invocations,
the event-callback invocations (by type tag), other lifecycle callback
invocations, and the exception escaping the handler, if any. -/
structure MsgOutcome where
  errorCalls : List String := []
  eventCalls : List String := []
  otherCalls : List String := []
  raised : Option String := Option.none

/-- The all-empty outcome: nothing invoked, nothing raised. -/
def emptyOutcome : MsgOutcome := {}

/-- The pattern if self.on_error: self.on_error(msg), not wrapped in any
try: when the registered error callback itself raises, the exception
escapes the handler. -/
def reportError (cbs : Callbacks) (msg : String) : MsgOutcome :=
  match cbs.on_error with
  | some f =>
      match f msg with
      | .ok _ => { errorCalls := [msg] }
      | .error e => { errorCalls := [msg], raised := some e }
  | Option.none => {}

namespace WsHandlers

/-- The on_message handler (ws.py lines 422-470).  The frame argument is
the result of json.loads on the inbound text: Option.none when the text is
malformed JSON (json.loads raises, reported as Invalid JSON from server),
some data when it decodes to the JSON object data.  Any exception from
model validation or from the invoked event callback is caught by the
except around the elif chain and forwarded to the error callback. -/
def on_message (cbs : Callbacks) (frame : Option (List (String × PyVal))) :
    MsgOutcome :=
  match frame with
  | Option.none => reportError cbs "Invalid JSON from server"
  | some data =>
    match routeEvent cbs data with
    | .noMatch => {}
    | .handled t => { eventCalls := [t] }
    | .cbRaised t e =>
        let o := reportError cbs ("Failed to parse event " ++ t ++ ": " ++ e)
        { o with eventCalls := [t] }
    | .validationFailed t e =>
        reportError cbs ("Failed to parse event " ++ t ++ ": " ++ e)

end WsHandlers

/-- Char-list version of: the first list is an initial segment of the second. -/
def leadMatch : List Char → List Char → Bool
  | [], _ => true
  | _ :: _, [] => false
  | a :: as, b :: bs => a = b && leadMatch as bs

/-- Char-list version of Python substring containment. -/
def hasRun (needle : List Char) : List Char → Bool
  | [] => needle.isEmpty
  | c :: rest => leadMatch needle (c :: rest) || hasRun needle rest

/-- Python: needle in hay, for strings. -/
def strContains (hay needle : String) : Bool :=
  hasRun needle.toList hay.toList

/-- The normal-closure test of the on_error handler (ws.py line 416): the
message merely has to contain one of these three substrings. -/
def isNormalClosureMsg (msg : String) : Bool :=
  strContains msg "opcode=8" || strContains msg "1000" || strContains msg "STATUS_NORMAL"

namespace WsHandlers

/-- The on_error handler (ws.py lines 413-420): messages matching the
normal-closure test are swallowed with no callback; anything else goes to
the registered error callback. -/
def on_error (cbs : Callbacks) (error : String) : MsgOutcome :=
  if isNormalClosureMsg error then {}
  else reportError cbs error

/-- The on_close handler (ws.py lines 403-411): with a non-None close code
and a registered error callback, surface the close reason through the error
callback inside try/except pass (so a raising error callback is swallowed
here); then invoke on_disconnected when registered (not wrapped: it may
raise out). -/
def on_close (cbs : Callbacks) (status_code : Option Int) (msg : String) :
    MsgOutcome :=
  let e1 : List String :=
    match cbs.on_error, status_code with
    | some _, some c => ["WebSocket closed: code=" ++ toString c ++ " msg=" ++ msg]
    | _, _ => []
  match cbs.on_disconnected with
  | some r =>
      { errorCalls := e1, otherCalls := ["disconnected"],
        raised := match r with | .ok _ => Option.none | .error e => some e }
  | Option.none => { errorCalls := e1 }

end WsHandlers

/-- A TranslationConfig with every Python default. -/
def defaultTranslationConfig : InitializeSessionRequest.RealtimeProcessing.TranslationConfig := {}

/-- Realtime block with the translation flag left false but a (default)
translation config object attached. -/
def rpCexC1 : InitializeSessionRequest.RealtimeProcessing :=
  { translation_config := some defaultTranslationConfig }

/-- A request whose translation feature flag is false while its
translation_config field is a config object rather than None. -/
def cexC1 : InitializeSessionRequest := { realtime_processing := some rpCexC1 }

/-- Realtime block whose custom spelling dictionary maps one word to an
empty list of alternate spellings. -/
def rpCexC10 : InitializeSessionRequest.RealtimeProcessing :=
  { custom_spelling := true,
    custom_spelling_config := some { spelling_dictionary := [("gladia", [])] } }

/-- A request carrying an empty list inside a dict-valued field. -/
def cexC10 : InitializeSessionRequest := { realtime_processing := some rpCexC10 }

/-- A callback registry with every slot registered and every handler
returning normally. -/
def cbsAll : Callbacks :=
  { on_error := some (fun _ => .ok ()),
    on_connected := some (.ok ()),
    on_disconnected := some (.ok ()),
    on_speech_start := some (fun _ => .ok ()),
    on_speech_end := some (fun _ => .ok ()),
    on_transcript := some (fun _ => .ok ()),
    on_translation := some (fun _ => .ok ()),
    on_ner := some (fun _ => .ok ()),
    on_sentiment := some (fun _ => .ok ()),
    on_post_transcript := some (fun _ => .ok ()),
    on_final_transcript := some (fun _ => .ok ()),
    on_chapterization := some (fun _ => .ok ()),
    on_summarization := some (fun _ => .ok ()),
    on_audio_ack := some (fun _ => .ok ()),
    on_stop_ack := some (fun _ => .ok ()),
    on_start_session := some (fun _ => .ok ()),
    on_end_session := some (fun _ => .ok ()),
    on_start_recording := some (fun _ => .ok ()),
    on_end_recording := some (fun _ => .ok ()) }

/-- A registry whose transcript handler raises. -/
def cbsRaise : Callbacks :=
  { on_error := some (fun _ => .ok ()),
    on_transcript := some (fun _ => .error "boom") }

/-- A fully valid utterance object. -/
def utterW : PyVal :=
  .dict [("language", .str "en"), ("start", .float 0), ("end", .float 1),
         ("confidence", .float 1), ("channel", .int 0), ("words", .list []),
         ("text", .str "hello"), ("speaker", PyVal.none)]

/-- A fully valid transcript frame. -/
def dataTW : List (String × PyVal) :=
  [("session_id", .str "s1"), ("created_at", .str "2025-01-01T00:00:00Z"),
   ("type", .str "transcript"),
   ("data", .dict [("id", .str "u1"), ("is_final", .bool true), ("utterance", utterW)])]

/-- A transcript frame missing its required data payload. -/
def dataMissingW : List (String × PyVal) :=
  [("session_id", .str "s1"), ("created_at", .str "2025-01-01T00:00:00Z"),
   ("type", .str "transcript")]

/-- A 401 control-plane response whose body is an empty JSON object. -/
def resp401 : HttpResponse := { status_code := 401, body := some [] }

/-- A request with every Python default. -/
def reqW : InitializeSessionRequest := {}

/-- A realtime block with every Python default: all flags false, all
sub-configs None. -/
def rpW : InitializeSessionRequest.RealtimeProcessing := {}

/-- A post-processing block with every Python default. -/
def ppW : InitializeSessionRequest.PostProcessing := {}

/-- A language block with every Python default (empty language list). -/
def lcW : InitializeSessionRequest.LanguageConfig := {}

/-- A request with default (all-disabled) feature blocks attached. -/
def reqC1W : InitializeSessionRequest :=
  { realtime_processing := some rpW, post_processing := some ppW }

/-- A request with an empty language list and an empty target-language
list attached. -/
def reqC10W : InitializeSessionRequest :=
  { language_config := some lcW, realtime_processing := some rpCexC1 }

/-- A successful association lookup locates a member of the list. -/
theorem lookupKey_mem {l : List (String × PyVal)} {k : String} {v : PyVal}
    (h : lookupKey l k = some v) : (k, v) ∈ l := by
  induction l with
  | nil => simp [lookupKey] at h
  | cons p rest ih =>
    obtain ⟨n, w⟩ := p
    by_cases hn : n = k
    · subst hn
      simp only [lookupKey, if_true, eq_self_iff_true, ite_true] at h
      rw [show w = v from Option.some.inj h]
      exact List.mem_cons_self _ _
    · simp only [lookupKey, if_neg hn] at h
      exact List.mem_cons_of_mem _ (ih h)

/-- Removing one key leaves the list's other members in place. -/
theorem mem_popKey {l : List (String × PyVal)} {k j : String} {v : PyVal}
    (h : (k, v) ∈ popKey l j) : (k, v) ∈ l := by
  induction l with
  | nil => simp [popKey] at h
  | cons p rest ih =>
    obtain ⟨n, w⟩ := p
    by_cases hn : n = j
    · rw [popKey, if_pos hn] at h
      exact List.mem_cons_of_mem _ (ih h)
    · simp only [popKey, if_neg hn, List.mem_cons] at h
      rcases h with h | h
      · simp [h]
      · exact List.mem_cons_of_mem _ (ih h)

/-- Looking up any key other than the removed one is unchanged by popKey. -/
theorem lookupKey_popKey {l : List (String × PyVal)} {k j : String} (h : k ≠ j) :
    lookupKey (popKey l j) k = lookupKey l k := by
  induction l with
  | nil => simp [popKey]
  | cons p rest ih =>
    obtain ⟨n, w⟩ := p
    by_cases hn : n = j
    · have hk : n ≠ k := fun hh => h (hh.symm.trans hn)
      rw [popKey, if_pos hn, ih, lookupKey, if_neg hk]
    · by_cases hk : n = k
      · subst hk
        simp [popKey, if_neg hn, lookupKey]
      · simp [popKey, if_neg hn, lookupKey, if_neg hk, ih]

/-- A key that names no field of a dataclass names no key of its
serialization either: the field loop only ever emits input field names. -/
theorem lookupKey_dcFields_of_not_mem {fs : List (String × PyVal)} {k : String}
    (h : k ∉ fs.map Prod.fst) : lookupKey (dcFields true fs) k = Option.none := by
  induction fs with
  | nil => simp [dcFields, lookupKey]
  | cons p rest ih =>
    obtain ⟨n, v⟩ := p
    simp only [List.map_cons, List.mem_cons] at h
    push_neg at h
    obtain ⟨hn, hrest⟩ := h
    have hnk : n ≠ k := fun hh => hn hh.symm
    have ih' := ih hrest
    cases v with
    | none => simpa [dcFields] using ih'
    | bool b => simp [dcFields, lookupKey, if_neg hnk, ih']
    | int m => simp [dcFields, lookupKey, if_neg hnk, ih']
    | float q => simp [dcFields, lookupKey, if_neg hnk, ih']
    | str s => simp [dcFields, lookupKey, if_neg hnk, ih']
    | list xs =>
        simp only [dcFields, Bool.and_true]
        split
        · exact ih'
        · simp [lookupKey, if_neg hnk, ih']
    | dict kvs => simp [dcFields, lookupKey, if_neg hnk, ih']
    | dataclass gs => simp [dcFields, lookupKey, if_neg hnk, ih']

/-- When a key names at most one field, looking it up after the field loop
is exactly the single-field conversion of looking it up before: dropped
when the value is None or an empty converted list, a dict when the value is
a nested dataclass, recursively converted when it is a dict, the converted
items when it is a list, and itself otherwise. -/
theorem lookupKey_dcFields {fs : List (String × PyVal)} {k : String}
    (h : keyCount fs k ≤ 1) :
    lookupKey (dcFields true fs) k = convertField (lookupKey fs k) := by
  induction fs with
  | nil => simp [dcFields, lookupKey, convertField]
  | cons p rest ih =>
    obtain ⟨n, v⟩ := p
    by_cases hn : n = k
    · subst hn
      have hz : keyCount rest n = 0 := by
        simp only [keyCount, List.map_cons, List.count_cons, beq_self_eq_true,
          if_true, ite_true] at h ⊢
        omega
      have hrest : n ∉ rest.map Prod.fst := by
        simpa [keyCount, List.count_eq_zero] using hz
      have hnone := lookupKey_dcFields_of_not_mem hrest
      cases v with
      | none => simp [dcFields, lookupKey, convertField, hnone]
      | bool b => simp [dcFields, lookupKey, convertField]
      | int m => simp [dcFields, lookupKey, convertField]
      | float q => simp [dcFields, lookupKey, convertField]
      | str s => simp [dcFields, lookupKey, convertField]
      | list xs =>
          simp only [dcFields, Bool.and_true, lookupKey, if_true, ite_true,
            convertField]
          split
          · simpa using hnone
          · simp [lookupKey]
      | dict kvs => simp [dcFields, lookupKey, convertField]
      | dataclass gs => simp [dcFields, lookupKey, convertField]
    · have hcount : keyCount rest k ≤ 1 := by
        simp only [keyCount, List.map_cons, List.count_cons] at h ⊢
        omega
      have ih' := ih hcount
      cases v with
      | none => simpa [dcFields, lookupKey, if_neg hn] using ih'
      | bool b => simp [dcFields, lookupKey, if_neg hn, ih']
      | int m => simp [dcFields, lookupKey, if_neg hn, ih']
      | float q => simp [dcFields, lookupKey, if_neg hn, ih']
      | str s => simp [dcFields, lookupKey, if_neg hn, ih']
      | list xs =>
          simp only [dcFields, Bool.and_true, lookupKey, if_neg hn]
          split
          · exact ih'
          · simp [lookupKey, if_neg hn, ih']
      | dict kvs => simp [dcFields, lookupKey, if_neg hn, ih']
      | dataclass gs => simp [dcFields, lookupKey, if_neg hn, ih']

/-- The field loop with exclude_none never emits a null value: a None field
is skipped and every other branch emits a dict, a list, or a non-null
primitive. -/
theorem dcFields_no_null {fs : List (String × PyVal)} {k : String} {v : PyVal}
    (h : (k, v) ∈ dcFields true fs) : v ≠ PyVal.none := by
  induction fs with
  | nil => simp [dcFields] at h
  | cons p rest ih =>
    obtain ⟨n, w⟩ := p
    cases w with
    | none =>
        simp only [dcFields, if_true, ite_true] at h
        exact ih h
    | bool b =>
        simp only [dcFields, List.mem_cons] at h
        rcases h with h | h
        · simp [Prod.ext_iff] at h; simp [h.2]
        · exact ih h
    | int m =>
        simp only [dcFields, List.mem_cons] at h
        rcases h with h | h
        · simp [Prod.ext_iff] at h; simp [h.2]
        · exact ih h
    | float q =>
        simp only [dcFields, List.mem_cons] at h
        rcases h with h | h
        · simp [Prod.ext_iff] at h; simp [h.2]
        · exact ih h
    | str s =>
        simp only [dcFields, List.mem_cons] at h
        rcases h with h | h
        · simp [Prod.ext_iff] at h; simp [h.2]
        · exact ih h
    | list xs =>
        simp only [dcFields, Bool.and_true] at h
        revert h
        split
        · exact fun h => ih h
        · intro h
          simp only [List.mem_cons] at h
          rcases h with h | h
          · simp [Prod.ext_iff] at h; simp [h.2]
          · exact ih h
    | dict kvs =>
        simp only [dcFields, List.mem_cons] at h
        rcases h with h | h
        · simp [Prod.ext_iff] at h; simp [h.2]
        · exact ih h
    | dataclass gs =>
        simp only [dcFields, List.mem_cons] at h
        rcases h with h | h
        · simp [Prod.ext_iff] at h; simp [h.2]
        · exact ih h

/-- The field names of the top-level request, in source order. -/
theorem pyFields_names (r : InitializeSessionRequest) :
    r.pyFields.map Prod.fst =
      ["region", "encoding", "bit_depth", "sample_rate", "channels",
       "custom_metadata", "model", "endpointing",
       "maximum_duration_without_endpointing", "language_config",
       "pre_processing", "realtime_processing", "post_processing",
       "messages_config", "callback", "callback_config"] := by
  simp [InitializeSessionRequest.pyFields]

/-- Field names of the top-level request are distinct. -/
theorem keyCount_pyFields_le_one (r : InitializeSessionRequest) (k : String) :
    keyCount r.pyFields k ≤ 1 := by
  have h : (r.pyFields.map Prod.fst).Nodup := by
    rw [pyFields_names]; decide
  exact List.nodup_iff_count_le_one.mp h k

/-- Field names of the realtime block are distinct. -/
theorem keyCount_rp_le_one (c : InitializeSessionRequest.RealtimeProcessing)
    (k : String) : keyCount c.pyFields k ≤ 1 := by
  have h : (c.pyFields.map Prod.fst).Nodup := by
    simp [InitializeSessionRequest.RealtimeProcessing.pyFields]
  exact List.nodup_iff_count_le_one.mp h k

/-- Field names of the post-processing block are distinct. -/
theorem keyCount_pp_le_one (c : InitializeSessionRequest.PostProcessing)
    (k : String) : keyCount c.pyFields k ≤ 1 := by
  have h : (c.pyFields.map Prod.fst).Nodup := by
    simp [InitializeSessionRequest.PostProcessing.pyFields]
  exact List.nodup_iff_count_le_one.mp h k

/-- Field names of the language block are distinct. -/
theorem keyCount_lc_le_one (c : InitializeSessionRequest.LanguageConfig)
    (k : String) : keyCount c.pyFields k ≤ 1 := by
  have h : (c.pyFields.map Prod.fst).Nodup := by
    simp [InitializeSessionRequest.LanguageConfig.pyFields]
  exact List.nodup_iff_count_le_one.mp h k

/-- Field names of the translation block are distinct. -/
theorem keyCount_tc_le_one
    (c : InitializeSessionRequest.RealtimeProcessing.TranslationConfig)
    (k : String) : keyCount c.pyFields k ≤ 1 := by
  have h : (c.pyFields.map Prod.fst).Nodup := by
    simp [InitializeSessionRequest.RealtimeProcessing.TranslationConfig.pyFields]
  exact List.nodup_iff_count_le_one.mp h k

/-- Looking up a non-region key in the serialized handshake body reduces to
the single-field conversion of the raw field value. -/
theorem to_json_getKey (r : InitializeSessionRequest) {k : String}
    (h : k ≠ "region") :
    r.to_json.getKey k = convertField (lookupKey r.pyFields k) := by
  show (((dataclassToDict true (.dataclass r.pyFields))).pop "region").getKey k = _
  simp only [dataclassToDict, PyVal.pop, PyVal.getKey]
  rw [lookupKey_popKey h, lookupKey_dcFields (keyCount_pyFields_le_one r k)]

/-- Field names of the custom spelling block are distinct. -/
theorem keyCount_csc_le_one
    (c : InitializeSessionRequest.RealtimeProcessing.CustomSpellingConfig)
    (k : String) : keyCount c.pyFields k ≤ 1 := by
  have h : (c.pyFields.map Prod.fst).Nodup := by
    simp [InitializeSessionRequest.RealtimeProcessing.CustomSpellingConfig.pyFields]
  exact List.nodup_iff_count_le_one.mp h k

/-- C1 (amended).  For every request: when a feature flag is false AND the
feature's sub-config field is None (the constructor default for a disabled
feature), the serialized handshake body omits the sub-config key entirely —
at top level (callback_config), inside realtime_processing
(custom_vocabulary_config, custom_spelling_config, translation_config) and
inside post_processing (summarization_config); moreover no key of the body
is ever mapped to null.  (The original claim, quantifying over the flag
alone, is refuted by c1_counterexample: the sub-config must be None, which
is what a disabled feature defaults to.) -/
theorem c1_disabled_feature_subconfig_omitted (r : InitializeSessionRequest) :
    (r.callback = some false → r.callback_config = Option.none →
        r.to_json.getKey "callback_config" = Option.none)
  ∧ (∀ rp, r.realtime_processing = some rp →
        r.to_json.getKey "realtime_processing" =
          some (.dict (dcFields true rp.pyFields))
      ∧ (rp.custom_vocabulary = false → rp.custom_vocabulary_config = Option.none →
            lookupKey (dcFields true rp.pyFields) "custom_vocabulary_config" =
              Option.none)
      ∧ (rp.custom_spelling = false → rp.custom_spelling_config = Option.none →
            lookupKey (dcFields true rp.pyFields) "custom_spelling_config" =
              Option.none)
      ∧ (rp.translation = false → rp.translation_config = Option.none →
            lookupKey (dcFields true rp.pyFields) "translation_config" =
              Option.none))
  ∧ (∀ pp, r.post_processing = some pp →
        r.to_json.getKey "post_processing" =
          some (.dict (dcFields true pp.pyFields))
      ∧ (pp.summarization = some false → pp.summarization_config = Option.none →
            lookupKey (dcFields true pp.pyFields) "summarization_config" =
              Option.none))
  ∧ (∀ k v, r.to_json.getKey k = some v → v ≠ PyVal.none) := by
  refine ⟨?_, ?_, ?_, ?_⟩
  · intro _ h2
    rw [to_json_getKey r (by decide)]
    simp [InitializeSessionRequest.pyFields, lookupKey, h2, optPy, convertField]
  · intro rp hrp
    refine ⟨?_, ?_, ?_, ?_⟩
    · rw [to_json_getKey r (by decide)]
      simp [InitializeSessionRequest.pyFields, lookupKey, hrp, optPy, convertField]
    · intro _ h2
      rw [lookupKey_dcFields (keyCount_rp_le_one rp _)]
      simp [InitializeSessionRequest.RealtimeProcessing.pyFields, lookupKey, h2,
        optPy, convertField]
    · intro _ h2
      rw [lookupKey_dcFields (keyCount_rp_le_one rp _)]
      simp [InitializeSessionRequest.RealtimeProcessing.pyFields, lookupKey, h2,
        optPy, convertField]
    · intro _ h2
      rw [lookupKey_dcFields (keyCount_rp_le_one rp _)]
      simp [InitializeSessionRequest.RealtimeProcessing.pyFields, lookupKey, h2,
        optPy, convertField]
  · intro pp hpp
    refine ⟨?_, ?_⟩
    · rw [to_json_getKey r (by decide)]
      simp [InitializeSessionRequest.pyFields, lookupKey, hpp, optPy, convertField]
    · intro _ h2
      rw [lookupKey_dcFields (keyCount_pp_le_one pp _)]
      simp [InitializeSessionRequest.PostProcessing.pyFields, lookupKey, h2,
        optPy, convertField]
  · intro k v hv
    have hm : (k, v) ∈ popKey (dcFields true r.pyFields) "region" :=
      lookupKey_mem (by
        simpa [InitializeSessionRequest.to_json, InitializeSessionRequest.toPy,
          dataclassToDict, PyVal.pop, PyVal.getKey] using hv)
    exact dcFields_no_null (mem_popKey hm)

/-- C1 witness: on a concrete all-defaults request every disabled feature's
sub-config key is absent from the serialized body. -/
theorem c1_disabled_feature_subconfig_omitted_witness :
    reqC1W.to_json.getKey "callback_config" = Option.none
  ∧ lookupKey (dcFields true rpW.pyFields) "custom_vocabulary_config" = Option.none
  ∧ lookupKey (dcFields true rpW.pyFields) "custom_spelling_config" = Option.none
  ∧ lookupKey (dcFields true rpW.pyFields) "translation_config" = Option.none
  ∧ lookupKey (dcFields true ppW.pyFields) "summarization_config" = Option.none := by
  have h := c1_disabled_feature_subconfig_omitted reqC1W
  exact ⟨h.1 rfl rfl,
    (h.2.1 rpW rfl).2.1 rfl rfl,
    (h.2.1 rpW rfl).2.2.1 rfl rfl,
    (h.2.1 rpW rfl).2.2.2 rfl rfl,
    (h.2.2.1 ppW rfl).2 rfl rfl⟩

/-- C1 counterexample: a request whose translation feature flag is false
but whose translation_config field holds a (default) config object still
serializes the translation_config key — the flag being false does not by
itself make to_json omit the sub-config key. -/
theorem c1_counterexample :
    rpCexC1.translation = false
  ∧ cexC1.to_json.getKey "realtime_processing" =
      some (.dict (dcFields true rpCexC1.pyFields))
  ∧ lookupKey (dcFields true rpCexC1.pyFields) "translation_config" ≠
      Option.none := by
  refine ⟨rfl, ?_, ?_⟩
  · rw [to_json_getKey cexC1 (by decide)]
    simp [cexC1, InitializeSessionRequest.pyFields, lookupKey, optPy, convertField]
  · rw [lookupKey_dcFields (keyCount_rp_le_one rpCexC1 _)]
    simp [rpCexC1, InitializeSessionRequest.RealtimeProcessing.pyFields, lookupKey,
      optPy, convertField]

/-- C10 (amended).  to_json omits every list-valued dataclass field whose
list is empty, not only None fields: a LanguageConfig whose languages
defaulted to the empty list serializes without a languages key, and a
TranslationConfig with empty target_languages serializes without a
target_languages key.  (The further conclusion of the original claim — that
no empty list can ever appear anywhere in the handshake body — is refuted
by c10_counterexample: dict-valued fields keep their values, including
empty lists, as spelling_dictionary shows.) -/
theorem c10_empty_list_fields_omitted (r : InitializeSessionRequest) :
    (∀ lc, r.language_config = some lc →
        r.to_json.getKey "language_config" =
          some (.dict (dcFields true lc.pyFields))
      ∧ (lc.languages = [] →
            lookupKey (dcFields true lc.pyFields) "languages" = Option.none))
  ∧ (∀ rp tc, r.realtime_processing = some rp → rp.translation_config = some tc →
        lookupKey (dcFields true rp.pyFields) "translation_config" =
          some (.dict (dcFields true tc.pyFields))
      ∧ (tc.target_languages = [] →
            lookupKey (dcFields true tc.pyFields) "target_languages" =
              Option.none)) := by
  constructor
  · intro lc hlc
    constructor
    · rw [to_json_getKey r (by decide)]
      simp [InitializeSessionRequest.pyFields, lookupKey, hlc, optPy, convertField]
    · intro hempty
      rw [lookupKey_dcFields (keyCount_lc_le_one lc _)]
      simp [InitializeSessionRequest.LanguageConfig.pyFields, lookupKey, hempty,
        pyStrList, convertField, shallowConvert]
  · intro rp tc hrp htc
    constructor
    · rw [lookupKey_dcFields (keyCount_rp_le_one rp _)]
      simp [InitializeSessionRequest.RealtimeProcessing.pyFields, lookupKey, htc,
        optPy, convertField]
    · intro hempty
      rw [lookupKey_dcFields (keyCount_tc_le_one tc _)]
      simp [InitializeSessionRequest.RealtimeProcessing.TranslationConfig.pyFields,
        lookupKey, hempty, pyStrList, convertField, shallowConvert]

/-- C10 witness: on a concrete request with an empty language list and an
empty target-language list, both keys are absent from the serialized body. -/
theorem c10_empty_list_fields_omitted_witness :
    lookupKey (dcFields true lcW.pyFields) "languages" = Option.none
  ∧ lookupKey (dcFields true defaultTranslationConfig.pyFields) "target_languages" =
      Option.none := by
  have h := c10_empty_list_fields_omitted reqC10W
  exact ⟨(h.1 lcW rfl).2 rfl, (h.2 rpCexC1 defaultTranslationConfig rfl rfl).2 rfl⟩

/-- C10 counterexample: a spelling dictionary entry mapping a word to an
empty list of spellings survives serialization verbatim, so an empty list
does appear in the handshake body (inside a dict-valued field). -/
theorem c10_counterexample :
    cexC10.to_json.getKey "realtime_processing" =
      some (.dict (dcFields true rpCexC10.pyFields))
  ∧ lookupKey (dcFields true rpCexC10.pyFields) "custom_spelling_config" =
      some (.dict (dcFields true
        (InitializeSessionRequest.RealtimeProcessing.CustomSpellingConfig.pyFields
          { spelling_dictionary := [("gladia", [])] })))
  ∧ lookupKey (dcFields true
        (InitializeSessionRequest.RealtimeProcessing.CustomSpellingConfig.pyFields
          { spelling_dictionary := [("gladia", [])] })) "spelling_dictionary" =
      some (.dict [("gladia", PyVal.list [])]) := by
  refine ⟨?_, ?_, ?_⟩
  · rw [to_json_getKey cexC10 (by decide)]
    simp [cexC10, InitializeSessionRequest.pyFields, lookupKey, optPy, convertField]
  · rw [lookupKey_dcFields (keyCount_rp_le_one rpCexC10 _)]
    simp [rpCexC10, InitializeSessionRequest.RealtimeProcessing.pyFields, lookupKey,
      optPy, convertField]
  · rw [lookupKey_dcFields (keyCount_csc_le_one _ _)]
    simp [InitializeSessionRequest.RealtimeProcessing.CustomSpellingConfig.pyFields,
      lookupKey, convertField, deepConvertKV, dataclassToDict, deepConvertList,
      pyStrList]

/-- C5.  A handshake whose control-plane response has status 400 or above
raises GladiaError built by from_response at the call site: no session
value is produced (so nothing a transport connection could be made from),
and the error's status_code is the body's statusCode field, else the body's
status field, else the HTTP status code. -/
theorem c5_handshake_api_error (api_key : String)
    (req : InitializeSessionRequest) (resp : HttpResponse)
    (h : 400 ≤ resp.status_code) :
    GladiaWebsocketClient.connect api_key req resp =
      .apiError (GladiaError.from_response resp "Failed to create WebSocket session")
  ∧ (∀ s, GladiaWebsocketClient.connect api_key req resp ≠ .session s)
  ∧ (∀ body, resp.body = some body →
        lookupKey body "statusCode" = Option.none →
        lookupKey body "status" = Option.none →
        (GladiaError.from_response resp
            "Failed to create WebSocket session").status_code =
          .int resp.status_code)
  ∧ (∀ body v, resp.body = some body →
        lookupKey body "statusCode" = some v →
        (GladiaError.from_response resp
            "Failed to create WebSocket session").status_code = v) := by
  refine ⟨?_, ?_, ?_, ?_⟩
  · simp [GladiaWebsocketClient.connect, if_pos h]
  · intro s
    simp [GladiaWebsocketClient.connect, if_pos h]
  · intro body hbody h1 h2
    simp [GladiaError.from_response, dictGet, hbody, h1, h2]
  · intro body v hbody h1
    simp [GladiaError.from_response, dictGet, hbody, h1]

/-- C5 witness: a 401 response with an empty JSON body yields the API error
with status_code 401 and no session. -/
theorem c5_handshake_api_error_witness :
    GladiaWebsocketClient.connect "key" reqW resp401 =
      .apiError (GladiaError.from_response resp401
        "Failed to create WebSocket session")
  ∧ (GladiaError.from_response resp401
        "Failed to create WebSocket session").status_code = .int 401 := by
  have h := c5_handshake_api_error "key" reqW resp401 (by decide)
  exact ⟨h.1, h.2.2.1 [] rfl rfl rfl⟩

/-- C2: evidence against the claim.  connect_and_start has no
already-connected guard: from a fresh session, the first call starts one
receive-loop thread, and a second call returns true again (not an error),
replaces the websocket object and starts a second thread without closing or
stopping the first, so two receive loops have been started for one session. -/
theorem c2_second_connect_starts_second_loop :
    ((GladiaWebsocketClientSession.init "sess" "wss://example" "key").connect_and_start).2
       = true
  ∧ (((GladiaWebsocketClientSession.init "sess" "wss://example" "key").connect_and_start).1.connect_and_start).2
       = true
  ∧ (((GladiaWebsocketClientSession.init "sess" "wss://example" "key").connect_and_start).1.connect_and_start).1.threadsStarted
       = 2
  ∧ (((GladiaWebsocketClientSession.init "sess" "wss://example" "key").connect_and_start).1.connect_and_start).1.closeCalls
       = 0
  ∧ (((GladiaWebsocketClientSession.init "sess" "wss://example" "key").connect_and_start).1.connect_and_start).1.ws
       ≠ ((GladiaWebsocketClientSession.init "sess" "wss://example" "key").connect_and_start).1.ws := by
  refine ⟨rfl, rfl, rfl, rfl, ?_⟩
  simp [GladiaWebsocketClientSession.init, GladiaWebsocketClientSession.connect_and_start]

/-- C9.  disconnect is idempotent: whatever the session state and whatever
the close call does, a second disconnect returns normally (ok, no error is
possible since no websocket is attached any more), performs no further
close call and leaves the state fixed; after any disconnect the websocket
slot is cleared. -/
theorem c9_disconnect_idempotent (close : Nat → Except String Unit)
    (s : GladiaWebsocketClientSession) :
    (GladiaWebsocketClientSession.disconnect close s).2.ws = Option.none
  ∧ GladiaWebsocketClientSession.disconnect close
        (GladiaWebsocketClientSession.disconnect close s).2 =
      (Except.ok (), (GladiaWebsocketClientSession.disconnect close s).2) := by
  cases hws : s.ws with
  | none =>
      constructor
      · simp [GladiaWebsocketClientSession.disconnect, hws]
      · simp [GladiaWebsocketClientSession.disconnect, hws]
  | some w =>
      constructor
      · simp [GladiaWebsocketClientSession.disconnect, hws]
      · simp [GladiaWebsocketClientSession.disconnect, hws]

/-- C7.  send_audio_binary with no attached websocket (a fresh session
before connect_and_start, or any session after disconnect) returns false,
sends nothing and raises nothing; with an attached websocket it returns
true and puts exactly the first size bytes of the buffer on the wire as a
single binary frame, verbatim (an initial segment of the buffer, of length
min size len). -/
theorem c7_send_audio_binary (s : GladiaWebsocketClientSession)
    (audio_data : List Nat) (size : Nat) :
    (s.ws = Option.none →
        s.send_audio_binary audio_data size = (false, Option.none))
  ∧ (∀ w, s.ws = some w →
        s.send_audio_binary audio_data size =
          (true, some (audio_data.take size))
      ∧ audio_data.take size <+: audio_data
      ∧ (audio_data.take size).length = min size audio_data.length)
  ∧ (GladiaWebsocketClientSession.init s.id s.url s.api_key).send_audio_binary
        audio_data size = (false, Option.none)
  ∧ (∀ close,
        (GladiaWebsocketClientSession.disconnect close s).2.send_audio_binary
          audio_data size = (false, Option.none)) := by
  refine ⟨?_, ?_, ?_, ?_⟩
  · intro h
    simp [GladiaWebsocketClientSession.send_audio_binary, h]
  · intro w h
    refine ⟨?_, ⟨audio_data.drop size, List.take_append_drop size audio_data⟩, ?_⟩
    · simp [GladiaWebsocketClientSession.send_audio_binary, h]
    · simp [List.length_take]
  · simp [GladiaWebsocketClientSession.send_audio_binary,
      GladiaWebsocketClientSession.init]
  · intro close
    cases hws : s.ws with
    | none =>
        simp [GladiaWebsocketClientSession.disconnect, hws,
          GladiaWebsocketClientSession.send_audio_binary]
    | some w =>
        simp [GladiaWebsocketClientSession.disconnect, hws,
          GladiaWebsocketClientSession.send_audio_binary]

/-- C7 witness: a fresh session refuses to send; after connect_and_start
the same bytes go out truncated to the requested size. -/
theorem c7_send_audio_binary_witness :
    (GladiaWebsocketClientSession.init "a" "wss://x" "k").send_audio_binary
        [1, 2, 3] 2 = (false, Option.none)
  ∧ ((GladiaWebsocketClientSession.init "a" "wss://x" "k").connect_and_start).1.send_audio_binary
        [1, 2, 3] 2 = (true, some [1, 2]) := by
  refine ⟨(c7_send_audio_binary
      (GladiaWebsocketClientSession.init "a" "wss://x" "k") [1, 2, 3] 2).1 rfl, ?_⟩
  exact (((c7_send_audio_binary
      ((GladiaWebsocketClientSession.init "a" "wss://x" "k").connect_and_start).1
      [1, 2, 3] 2).2.1) 0 rfl).1

/-- C3.  With an error callback registered (and well behaved), a malformed
JSON frame makes on_message invoke the error callback once with the decode
message, invoke no event callback and return normally; a frame whose
recognized type fails payload validation likewise yields exactly one error
callback invocation, no event callback and a normal return; and concretely
a transcript frame missing its required data payload does fail validation
at the transcript arm of the dispatcher. -/
theorem c3_decode_failures_drop_frame (cbs : Callbacks)
    (f : String → Except String Unit) (herr : cbs.on_error = some f)
    (hok : ∀ m, f m = Except.ok ()) :
    WsHandlers.on_message cbs Option.none =
      { errorCalls := ["Invalid JSON from server"] }
  ∧ (∀ data t e, routeEvent cbs data = .validationFailed t e →
        WsHandlers.on_message cbs (some data) =
          { errorCalls := ["Failed to parse event " ++ t ++ ": " ++ e] })
  ∧ (∀ data g, cbs.on_transcript = some g →
        lookupKey data "type" = some (.str events.TRANSCRIPT) →
        lookupKey data "data" = Option.none →
        routeEvent cbs data =
          .validationFailed events.TRANSCRIPT
            ("validation error for type " ++ events.TRANSCRIPT)) := by
  refine ⟨?_, ?_, ?_⟩
  · simp [WsHandlers.on_message, reportError, herr, hok]
  · intro data t e hroute
    simp [WsHandlers.on_message, hroute, reportError, herr, hok]
  · intro data g hcb htype hdata
    simp [routeEvent, htype, branch, hcb,
      events.SPEECH_START, events.SPEECH_END, events.TRANSCRIPT,
      events.TRANSLATION, events.NAMED_ENTITY_RECOGNITION,
      events.SENTIMENT_ANALYSIS, events.POST_TRANSCRIPTION,
      events.FINAL_TRANSCRIPTION, events.CHAPTERIZATION, events.SUMMARIZATION,
      events.AUDIO_CHUNK, events.STOP_RECORDING, events.START_SESSION,
      events.END_SESSION, events.START_RECORDING, events.END_RECORDING,
      validTranscript, reqField, hdata]

/-- C3 witness: with every callback registered, a malformed frame and a
transcript frame missing its data payload each produce exactly one error
callback invocation, no event callback invocation, and a normal return. -/
theorem c3_decode_failures_drop_frame_witness :
    WsHandlers.on_message cbsAll Option.none =
      { errorCalls := ["Invalid JSON from server"] }
  ∧ routeEvent cbsAll dataMissingW =
      .validationFailed events.TRANSCRIPT
        ("validation error for type " ++ events.TRANSCRIPT)
  ∧ WsHandlers.on_message cbsAll (some dataMissingW) =
      { errorCalls := ["Failed to parse event " ++ events.TRANSCRIPT ++ ": " ++
          ("validation error for type " ++ events.TRANSCRIPT)] } := by
  have h := c3_decode_failures_drop_frame cbsAll (fun _ => .ok ()) rfl (fun _ => rfl)
  have hr := h.2.2 dataMissingW (fun _ => .ok ()) rfl rfl rfl
  exact ⟨h.1, hr, h.2.1 dataMissingW _ _ hr⟩

/-- C4.  With an error callback registered (and well behaved), any event
callback that raises during dispatch is caught at the dispatch boundary:
on_message forwards the failure to the error callback and returns normally
(nothing escapes into the receive loop); and concretely, at the transcript
arm, a registered callback raising e on a frame that passed validation
yields exactly that contained outcome. -/
theorem c4_callback_raise_contained (cbs : Callbacks)
    (f : String → Except String Unit) (herr : cbs.on_error = some f)
    (hok : ∀ m, f m = Except.ok ()) :
    (∀ data t e, routeEvent cbs data = .cbRaised t e →
        WsHandlers.on_message cbs (some data) =
          { errorCalls := ["Failed to parse event " ++ t ++ ": " ++ e],
            eventCalls := [t] })
  ∧ (∀ data g e, cbs.on_transcript = some g →
        lookupKey data "type" = some (.str events.TRANSCRIPT) →
        validTranscript (.dict data) = true →
        g (.dict data) = .error e →
        routeEvent cbs data = .cbRaised events.TRANSCRIPT e) := by
  constructor
  · intro data t e hroute
    simp [WsHandlers.on_message, hroute, reportError, herr, hok]
  · intro data g e hcb htype hvalid hraise
    simp [routeEvent, htype, branch, hcb,
      events.SPEECH_START, events.SPEECH_END, events.TRANSCRIPT,
      events.TRANSLATION, events.NAMED_ENTITY_RECOGNITION,
      events.SENTIMENT_ANALYSIS, events.POST_TRANSCRIPTION,
      events.FINAL_TRANSCRIPTION, events.CHAPTERIZATION, events.SUMMARIZATION,
      events.AUDIO_CHUNK, events.STOP_RECORDING, events.START_SESSION,
      events.END_SESSION, events.START_RECORDING, events.END_RECORDING,
      hvalid, runCb, hraise]

/-- C4 witness: a raising transcript callback on a fully valid transcript
frame is caught and forwarded to the error callback, with no exception
escaping on_message. -/
theorem c4_callback_raise_contained_witness :
    routeEvent cbsRaise dataTW = .cbRaised events.TRANSCRIPT "boom"
  ∧ WsHandlers.on_message cbsRaise (some dataTW) =
      { errorCalls := ["Failed to parse event " ++ events.TRANSCRIPT ++ ": " ++ "boom"],
        eventCalls := [events.TRANSCRIPT] } := by
  have h := c4_callback_raise_contained cbsRaise (fun _ => .ok ()) rfl (fun _ => rfl)
  have hr := h.2 dataTW (fun _ => .error "boom") "boom" rfl rfl (by decide) rfl
  exact ⟨hr, h.1 dataTW _ _ hr⟩

/-- C6.  A decoded JSON object whose type value is missing, is not a
string, or is a string outside the known variant set falls through every
arm of the dispatcher: no event callback and no error callback is invoked
and nothing is raised — the frame is silently ignored. -/
theorem c6_unknown_type_silently_ignored (cbs : Callbacks)
    (data : List (String × PyVal))
    (h : ∀ t ∈ knownEventTypes, lookupKey data "type" ≠ some (.str t)) :
    routeEvent cbs data = .noMatch
  ∧ WsHandlers.on_message cbs (some data) = emptyOutcome := by
  have hroute : routeEvent cbs data = .noMatch := by
    cases het : lookupKey data "type" with
    | none => simp [routeEvent, het, branch]
    | some v =>
      cases v with
      | str sv =>
          have hne : ∀ t ∈ knownEventTypes, sv ≠ t := by
            intro t ht hst
            exact h t ht (by rw [het, hst])
          simp only [knownEventTypes, List.mem_cons, List.not_mem_nil,
            or_false, forall_eq_or_imp, forall_eq] at hne
          obtain ⟨h1, h2, h3, h4, h5, h6, h7, h8, h9, h10, h11, h12, h13,
            h14, h15, h16⟩ := hne
          simp [routeEvent, het, branch, h1, h2, h3, h4, h5, h6, h7, h8, h9,
            h10, h11, h12, h13, h14, h15, h16]
      | none => simp [routeEvent, het, branch]
      | bool b => simp [routeEvent, het, branch]
      | int n => simp [routeEvent, het, branch]
      | float q => simp [routeEvent, het, branch]
      | list xs => simp [routeEvent, het, branch]
      | dict kvs => simp [routeEvent, het, branch]
      | dataclass fs => simp [routeEvent, het, branch]
  exact ⟨hroute, by simp [WsHandlers.on_message, hroute, emptyOutcome]⟩

/-- C6 witness: with every callback registered, a frame of an unknown type
tag invokes nothing and raises nothing. -/
theorem c6_unknown_type_silently_ignored_witness :
    routeEvent cbsAll [("type", PyVal.str "mystery_event")] = .noMatch
  ∧ WsHandlers.on_message cbsAll (some [("type", PyVal.str "mystery_event")]) =
      emptyOutcome := by
  exact c6_unknown_type_silently_ignored cbsAll _
    (by simp [knownEventTypes, lookupKey,
      events.SPEECH_START, events.SPEECH_END, events.TRANSCRIPT,
      events.TRANSLATION, events.NAMED_ENTITY_RECOGNITION,
      events.SENTIMENT_ANALYSIS, events.POST_TRANSCRIPTION,
      events.FINAL_TRANSCRIPTION, events.CHAPTERIZATION, events.SUMMARIZATION,
      events.AUDIO_CHUNK, events.STOP_RECORDING, events.START_SESSION,
      events.END_SESSION, events.START_RECORDING, events.END_RECORDING])

/-- C8 (amended).  With an error callback registered and well behaved,
the transport's on_error handler reports a connection-level failure to the
error callback and lets nothing escape — EXCEPT that any failure whose
message contains one of the substrings opcode=8, 1000 or STATUS_NORMAL is
treated as a normal closure and silently swallowed (see
c8_counterexample, which refutes the unqualified original claim); and the
session still proceeds to closed: on_close surfaces the close reason
through the error callback and invokes the disconnected callback. -/
theorem c8_transport_error_reporting (cbs : Callbacks)
    (f : String → Except String Unit) (herr : cbs.on_error = some f)
    (hok : ∀ m, f m = Except.ok ()) :
    (∀ msg, isNormalClosureMsg msg = false →
        WsHandlers.on_error cbs msg = { errorCalls := [msg] })
  ∧ (∀ msg, isNormalClosureMsg msg = true →
        WsHandlers.on_error cbs msg = emptyOutcome)
  ∧ (∀ (c : Int) (m : String), cbs.on_disconnected = some (.ok ()) →
        WsHandlers.on_close cbs (some c) m =
          { errorCalls := ["WebSocket closed: code=" ++ toString c ++ " msg=" ++ m],
            otherCalls := ["disconnected"] }) := by
  refine ⟨?_, ?_, ?_⟩
  · intro msg hm
    simp [WsHandlers.on_error, hm, reportError, herr, hok]
  · intro msg hm
    simp [WsHandlers.on_error, hm, emptyOutcome]
  · intro c m hdisc
    simp [WsHandlers.on_close, herr, hdisc]

/-- C8 witness: a failure message matching no normal-closure marker is
reported through the error callback, and a close with a code invokes the
disconnected callback. -/
theorem c8_transport_error_reporting_witness :
    WsHandlers.on_error cbsAll "connection refused" =
      { errorCalls := ["connection refused"] }
  ∧ WsHandlers.on_close cbsAll (some 1006) "abnormal closure" =
      { errorCalls := ["WebSocket closed: code=" ++ toString (1006 : Int) ++
          " msg=" ++ "abnormal closure"],
        otherCalls := ["disconnected"] } := by
  have h := c8_transport_error_reporting cbsAll (fun _ => .ok ()) rfl (fun _ => rfl)
  exact ⟨h.1 "connection refused" rfl, h.2.2 1006 "abnormal closure" rfl⟩

/-- C8 counterexample: a genuine transport failure message that merely
contains the digits 1000 is swallowed by the normal-closure test of
on_error even though an error callback is registered — the failure is
never reported. -/
theorem c8_counterexample :
    cbsAll.on_error.isSome = true
  ∧ isNormalClosureMsg "Connection to host failed after 1000 ms" = true
  ∧ WsHandlers.on_error cbsAll "Connection to host failed after 1000 ms" =
      emptyOutcome := by
  have hm : isNormalClosureMsg "Connection to host failed after 1000 ms" = true := by
    decide
  exact ⟨rfl, hm, by simp [WsHandlers.on_error, hm, emptyOutcome]⟩
